import Mathlib

/-!
Shallow embedding of the polling-and-booking engine of the Texas DPS
scheduler (`src/Client/index.ts`), together with theorems settling the
specification claims about it.

Modelling conventions:
* A calendar date is its epoch-day number (an `Int`); dayjs day-granularity
  comparisons become integer comparisons, and dayjs `.day()` (weekday,
  0 = Sunday) is computed from the epoch day (1970-01-01 was a Thursday).
* A time slot carries the local start hour that `dayjs(StartDateTime).hour()`
  would return, next to the raw `StartDateTime` timestamp.
* Network responses are parameters of the embedded functions; process state
  (`isHolded`, `isBooked`, the p-queue pause flag) is passed explicitly.
* `process.exit(c)` becomes an `Option Nat` exit code, and a JavaScript
  `TypeError` on an out-of-bounds index becomes an explicit outcome.
-/

namespace TexasScheduler

/-- A bookable time slot, from the `AvailableTimeSlots` entries of the
`/api/AvailableLocationDates` response.  `startHour` is the local hour that
`dayjs(StartDateTime).hour()` yields in the source (line 198-199). -/
structure AvailableTimeSlots where
  SlotId : Nat
  StartDateTime : Int
  startHour : Nat
  Duration : Nat
  deriving DecidableEq

/-- One entry of `response.LocationAvailabilityDates`: a calendar day (as an
epoch-day number) with its slot list. -/
structure LocationAvailabilityDate where
  AvailabilityDate : Int
  AvailableTimeSlots : List AvailableTimeSlots
  deriving DecidableEq

/-- The fields of `config.location` that the availability filter reads:
`sameDay`, `preferredDays`, `daysAround.start`, `daysAround.end`,
`daysAround.startDate` (as an epoch day), `timesAround.start`,
`timesAround.end`. -/
structure LocationConfig where
  sameDay : Bool
  preferredDays : List Int
  daysAroundStart : Int
  daysAroundEnd : Int
  startDateDay : Int
  timesAroundStart : Nat
  timesAroundEnd : Nat
  deriving DecidableEq

/-- The fields of `config.appSettings` used by the embedded code paths. -/
structure AppSettings where
  cancelIfExist : Bool
  maxRetry : Nat
  deriving DecidableEq

/-- dayjs `.day()`: the weekday (0 = Sunday … 6 = Saturday) of an epoch-day
number; day 0 (1970-01-01) was a Thursday, weekday 4. -/
def dayjsDay (epochDay : Int) : Int :=
  (epochDay + 4) % 7

/-- dayjs `isBetween(a, b, 'day')` with the plugin's default inclusivity
`'()'`: strictly between at day granularity; the second disjunct is the
plugin's symmetric branch for reversed bounds. -/
def isBetweenDay (d a b : Int) : Bool :=
  (decide (a < d) && decide (d < b)) || (decide (d < a) && decide (b < d))

/-- The per-date predicate of the windowed-mode filter, `src/Client/index.ts`
lines 182-191: in the window around `daysAround.startDate`, raw slot list
non-empty, and the preferred-day condition (vacuously true when
`preferredDays` is empty). -/
def windowedKeep (cfg : LocationConfig) (date : LocationAvailabilityDate) : Bool :=
  let preferredDaysCondition :=
    if cfg.preferredDays.length > 0 then
      cfg.preferredDays.contains (dayjsDay date.AvailabilityDate)
    else true
  isBetweenDay date.AvailabilityDate (cfg.startDateDay + cfg.daysAroundStart)
      (cfg.startDateDay + cfg.daysAroundEnd)
    && decide (date.AvailableTimeSlots.length > 0)
    && preferredDaysCondition

/-- Lines 179-193: the list `AvailableDates` after the same-day branch — the
raw `LocationAvailabilityDates` in same-day mode, the windowed filter
otherwise. -/
def availableDates (cfg : LocationConfig) (locationAvailabilityDates : List LocationAvailabilityDate) :
    List LocationAvailabilityDate :=
  if !cfg.sameDay then locationAvailabilityDates.filter (windowedKeep cfg)
  else locationAvailabilityDates

/-- The hour filter on a single slot, lines 197-201: keep the slot iff its
start hour is `>= timesAround.start` and `< timesAround.end`. -/
def timeSlotKeep (cfg : LocationConfig) (timeSlot : AvailableTimeSlots) : Bool :=
  decide (timeSlot.startHour ≥ cfg.timesAroundStart)
    && decide (timeSlot.startHour < cfg.timesAroundEnd)

/-- The map step of lines 196-205: a date with its slot list narrowed by the
hour filter. -/
def filterDateSlots (cfg : LocationConfig) (date : LocationAvailabilityDate) :
    LocationAvailabilityDate :=
  { date with AvailableTimeSlots := date.AvailableTimeSlots.filter (timeSlotKeep cfg) }

/-- `filteredAvailabilityDates` of lines 196-206, taking the already
window-filtered `AvailableDates` list: map the hour filter over each date,
then keep only dates with a non-empty surviving slot list. -/
def filteredAvailabilityDatesFrom (cfg : LocationConfig)
    (availDates : List LocationAvailabilityDate) : List LocationAvailabilityDate :=
  (availDates.map (filterDateSlots cfg)).filter
    (fun date => decide (date.AvailableTimeSlots.length > 0))

/-- The full availability filter: the window stage (lines 181-193) followed by
the hour-filter stage (lines 196-206). -/
def filteredAvailabilityDates (cfg : LocationConfig)
    (dates : List LocationAvailabilityDate) : List LocationAvailabilityDate :=
  filteredAvailabilityDatesFrom cfg (availableDates cfg dates)

/-- Line 208, `filteredAvailabilityDates[0].AvailableTimeSlots[0]`, as an
`Option`: `none` models the JavaScript undefined dereference / undefined
element when an index is out of bounds. -/
def chosenBooking (cfg : LocationConfig) (availDates : List LocationAvailabilityDate) :
    Option AvailableTimeSlots :=
  (filteredAvailabilityDatesFrom cfg availDates).head?.bind
    (fun date => date.AvailableTimeSlots.head?)

/-- The observable outcome of one `getLocationDates(location)` call. -/
inductive StepOutcome where
  /-- A `TypeError` was thrown at line 208/210 because the filtered list (or
  its first date's filtered slot list) was empty; the returned promise rejects
  before the queue is paused or any policy check runs. -/
  | threw : StepOutcome
  /-- The not-available path, lines 219-221: `Promise.reject()`; the queue
  pause flag is untouched. -/
  | rejected (queuePaused : Bool) : StepOutcome
  /-- `process.exit(code)` was reached (line 214). -/
  | exited (code : Nat) (queuePaused : Bool) : StepOutcome
  /-- Line 217, `Promise.resolve(true)`; `holdRequested` records whether a
  hold request was issued on the way. -/
  | fulfilled (booking : AvailableTimeSlots) (queuePaused : Bool) (holdRequested : Bool) :
      StepOutcome
  deriving DecidableEq

/-- `getLocationDates`, lines 169-222, given the dates list of the API
response, the existing-booking flag and the current queue pause flag.  If the
window-filtered list is non-empty, the candidate `booking` is selected
(line 208; an out-of-bounds index throws), the queue is paused (line 211), and
the pre-hold policy check runs (lines 212-215).  The `holdSlot` call at
line 216 is commented out in the source, so the fulfilled outcome carries
`holdRequested := false`. -/
def getLocationDates (cfg : LocationConfig) (app : AppSettings) (existBookingExist : Bool)
    (locationAvailabilityDates : List LocationAvailabilityDate) (queuePaused : Bool) :
    StepOutcome :=
  let avail := availableDates cfg locationAvailabilityDates
  if avail.length ≠ 0 then
    match chosenBooking cfg avail with
    | none => StepOutcome.threw
    | some booking =>
      if !app.cancelIfExist && existBookingExist then StepOutcome.exited 0 true
      else StepOutcome.fulfilled booking true false
  else StepOutcome.rejected queuePaused

/-- The process state shared between the scheduler and the booking code:
the `isBooked` and `isHolded` flags and the p-queue pause flag. -/
structure SchedulerState where
  isBooked : Bool
  isHolded : Bool
  queuePaused : Bool
  deriving DecidableEq

/-- Observable effects of a hold/book sequence: the exit code passed to
`process.exit` (if any) and whether `log.error` was called. -/
structure BookingEffects where
  exitCode : Option Nat
  errorLogged : Bool
  deriving DecidableEq

/-- `bookSlot`, lines 269-315, driven by the `/api/NewBooking` response:
its HTTP status code and whether the parsed body has `Booking: null`.
The cancel-existing and eligibility requests (lines 272-288) do not touch the
embedded state and are elided.  On status 200 with a null booking (lines
296-304) the queue is restarted, the failure is logged and `isHolded` is
cleared; on a non-null booking `isBooked` is set and the process exits with
code 0 (lines 305-309); on a non-200 status the queue is restarted and the
failure is logged (lines 310-314). -/
def bookSlot (st : SchedulerState) (statusCode : Nat) (bookingIsNull : Bool) :
    SchedulerState × BookingEffects :=
  if st.isBooked then (st, { exitCode := none, errorLogged := false })
  else if statusCode = 200 then
    if bookingIsNull then
      ({ st with queuePaused := false, isHolded := false },
        { exitCode := none, errorLogged := true })
    else
      ({ st with isBooked := true }, { exitCode := some 0, errorLogged := false })
  else
    ({ st with queuePaused := false }, { exitCode := none, errorLogged := true })

/-- `holdSlot`, lines 248-267, driven by the `/api/HoldSlot` response's
`SlotHeldSuccessfully` field and, when the hold succeeds, by the booking
response that the inner `bookSlot` call receives.  An attempt that observes
`isHolded` set returns at once with no effects (line 249); a failed hold
restarts the queue and logs the error (lines 258-263); a successful hold sets
`isHolded` and proceeds to `bookSlot` (lines 264-266). -/
def holdSlot (st : SchedulerState) (slotHeldSuccessfully : Bool)
    (bookStatusCode : Nat) (bookingIsNull : Bool) : SchedulerState × BookingEffects :=
  if st.isHolded then (st, { exitCode := none, errorLogged := false })
  else if slotHeldSuccessfully ≠ true then
    ({ st with queuePaused := false }, { exitCode := none, errorLogged := true })
  else
    bookSlot { st with isHolded := true } bookStatusCode bookingIsNull

/-- One entry of the `/api/Booking` response, with the fields
`checkExistBooking` reads. -/
structure ExistBookingResponse where
  ServiceTypeId : Nat
  ConfirmationNumber : String
  deriving DecidableEq

/-- `checkExistBooking`, lines 64-78: filter the API's booking list to the
configured appointment-type id; `exist` is true iff the filtered list is
non-empty, and the filtered list itself is returned either way. -/
def checkExistBooking (typeId : Nat) (apiBookings : List ExistBookingResponse) :
    Bool × List ExistBookingResponse :=
  let response := apiBookings.filter (fun booking => booking.ServiceTypeId == typeId)
  if response.length > 0 then (true, response) else (false, response)

/-- The final outcome of `requestApi`. -/
inductive RequestOutcome where
  | success (statusCode : Nat) : RequestOutcome
  /-- `process.exit(1)` at line 243. -/
  | fatalExit (code : Nat) : RequestOutcome
  deriving DecidableEq

/-- `requestApi`, lines 224-246, abstracting the transport as `statusOf n`,
the HTTP status the n-th attempt receives.  Returns the outcome together with
the total number of request attempts issued.  A non-200 status retries with
`retryTime + 1` while `retryTime < maxRetry`, and exits fatally with code 1
once `retryTime` reaches `maxRetry`. -/
def requestApi (maxRetry : Nat) (statusOf : Nat → Nat) (retryTime : Nat) :
    RequestOutcome × Nat :=
  if statusOf retryTime ≠ 200 then
    if h : retryTime < maxRetry then
      let rest := requestApi maxRetry statusOf (retryTime + 1)
      (rest.1, rest.2 + 1)
    else (RequestOutcome.fatalExit 1, 1)
  else (RequestOutcome.success (statusOf retryTime), 1)
termination_by maxRetry - retryTime
decreasing_by omega

/-! ### The spec's windowed-mode predicate, as literally stated -/

/-- The spec's windowed-mode keep-predicate with *inclusive* endpoints, as the
specification words it ("within `[referenceDate + startOffsetDays,
referenceDate + endOffsetDays]` inclusive"), for comparison with the filter
the source implements. -/
def specWindowedKeep (cfg : LocationConfig) (date : LocationAvailabilityDate) : Bool :=
  decide (cfg.startDateDay + cfg.daysAroundStart ≤ date.AvailabilityDate)
    && decide (date.AvailabilityDate ≤ cfg.startDateDay + cfg.daysAroundEnd)
    && (cfg.preferredDays.isEmpty || cfg.preferredDays.contains (dayjsDay date.AvailabilityDate))
    && date.AvailableTimeSlots.any (timeSlotKeep cfg)

/-! ### Concrete fixtures -/

/-- A slot at local hour 9. -/
def slotNine : AvailableTimeSlots :=
  { SlotId := 1, StartDateTime := 540, startHour := 9, Duration := 15 }

/-- A slot at local hour 14. -/
def slotFourteen : AvailableTimeSlots :=
  { SlotId := 2, StartDateTime := 840, startHour := 14, Duration := 15 }

/-- Day 5 with a single slot at hour 9. -/
def dateNine : LocationAvailabilityDate :=
  { AvailabilityDate := 5, AvailableTimeSlots := [slotNine] }

/-- Day 5 with a single slot at hour 14. -/
def dateFourteen : LocationAvailabilityDate :=
  { AvailabilityDate := 5, AvailableTimeSlots := [slotFourteen] }

/-- A date sitting exactly on `startDate + daysAround.start` of
`cfgWindowed` (the lower window endpoint), with a slot at hour 9. -/
def dateBoundary : LocationAvailabilityDate :=
  { AvailabilityDate := 1, AvailableTimeSlots := [slotNine] }

/-- Windowed-mode configuration: window offsets 1..30 around epoch day 0,
no preferred weekdays, hour window [8, 12). -/
def cfgWindowed : LocationConfig :=
  { sameDay := false, preferredDays := [], daysAroundStart := 1, daysAroundEnd := 30,
    startDateDay := 0, timesAroundStart := 8, timesAroundEnd := 12 }

/-- Same-day-mode configuration with hour window [8, 12). -/
def cfgSameDay : LocationConfig :=
  { sameDay := true, preferredDays := [], daysAroundStart := 1, daysAroundEnd := 30,
    startDateDay := 0, timesAroundStart := 8, timesAroundEnd := 12 }

/-- App settings with `cancelIfExist = true`. -/
def appCancel : AppSettings := { cancelIfExist := true, maxRetry := 3 }

/-- App settings with `cancelIfExist = false`. -/
def appNoCancel : AppSettings := { cancelIfExist := false, maxRetry := 3 }

/-! ### List helper lemmas -/

/-- The head of a filtered list is the first element satisfying the
predicate. -/
theorem head_filter_eq_find {α : Type} (p : α → Bool) (l : List α) :
    (l.filter p).head? = l.find? p := by
  induction l with
  | nil => rfl
  | cons a t ih =>
    by_cases h : p a <;> simp [List.filter_cons, List.find?_cons, h, ih]

/-- A filtered list is non-empty iff some element satisfies the predicate. -/
theorem decide_length_filter_pos {α : Type} (p : α → Bool) (l : List α) :
    decide (0 < (l.filter p).length) = l.any p := by
  rw [Bool.eq_iff_iff]
  simp [List.length_pos, List.filter_eq_nil_iff, List.any_eq_true]

/-- The hour-filter stage characterized as a filter-then-map over its input:
a date survives iff some slot survives the hour filter, and its slot list is
narrowed accordingly. -/
theorem filteredAvailabilityDatesFrom_eq (cfg : LocationConfig)
    (availDates : List LocationAvailabilityDate) :
    filteredAvailabilityDatesFrom cfg availDates =
      (availDates.filter
          (fun date => date.AvailableTimeSlots.any (timeSlotKeep cfg))).map
        (filterDateSlots cfg) := by
  unfold filteredAvailabilityDatesFrom
  rw [List.filter_map]
  congr 1
  apply List.filter_congr
  intro date _
  show decide (0 < ((filterDateSlots cfg date).AvailableTimeSlots).length) = _
  rw [show (filterDateSlots cfg date).AvailableTimeSlots
        = date.AvailableTimeSlots.filter (timeSlotKeep cfg) from rfl]
  exact decide_length_filter_pos _ _

/-- A filtered list is non-nil iff some element satisfies the predicate. -/
theorem filter_ne_nil_iff_any {α : Type} (p : α → Bool) (l : List α) :
    l.filter p ≠ [] ↔ l.any p = true := by
  simp [Ne, List.filter_eq_nil_iff, List.any_eq_true]

/-- The selection at line 208 is the first input date with a slot surviving
the hour filter, paired with its first surviving slot. -/
theorem chosenBooking_find_aux (cfg : LocationConfig)
    (availDates : List LocationAvailabilityDate) :
    chosenBooking cfg availDates =
      (availDates.find?
          (fun date => date.AvailableTimeSlots.any (timeSlotKeep cfg))).bind
        (fun date => date.AvailableTimeSlots.find? (timeSlotKeep cfg)) := by
  unfold chosenBooking
  rw [filteredAvailabilityDatesFrom_eq, List.head?_map, head_filter_eq_find]
  cases hf : availDates.find? (fun date => date.AvailableTimeSlots.any (timeSlotKeep cfg)) with
  | none => rfl
  | some d =>
    show ((filterDateSlots cfg d).AvailableTimeSlots).head?
        = d.AvailableTimeSlots.find? (timeSlotKeep cfg)
    exact head_filter_eq_find _ _

/-! ### Claim theorems -/

/-- Claim C7: for every configured hour window `[s, e)` and every time slot
with local start hour `h`, the slot survives the hour filter iff `s ≤ h` and
`h < e`; the end hour `e` itself is excluded. -/
theorem hour_filter_half_open (cfg : LocationConfig) (timeSlot : AvailableTimeSlots) :
    timeSlotKeep cfg timeSlot = true ↔
      cfg.timesAroundStart ≤ timeSlot.startHour ∧
        timeSlot.startHour < cfg.timesAroundEnd := by
  simp [timeSlotKeep]

/-- Claim C10: the existing-booking guard keeps exactly the bookings whose
`ServiceTypeId` equals the configured appointment-type id, returns that
filtered list, and reports `exist = true` iff the filtered list is
non-empty. -/
theorem checkExistBooking_characterization (typeId : Nat)
    (apiBookings : List ExistBookingResponse) :
    (checkExistBooking typeId apiBookings).2
        = apiBookings.filter (fun booking => booking.ServiceTypeId == typeId) ∧
      ((checkExistBooking typeId apiBookings).1 = true ↔
        apiBookings.filter (fun booking => booking.ServiceTypeId == typeId) ≠ []) := by
  unfold checkExistBooking
  by_cases h :
      0 < (apiBookings.filter (fun booking => booking.ServiceTypeId == typeId)).length
  · rw [if_pos h]
    exact ⟨rfl, by simpa [List.length_pos] using h⟩
  · rw [if_neg h]
    refine ⟨rfl, ?_⟩
    simp only [List.length_pos] at h
    simpa using h

/-- Claim C8: whenever the filtered result is non-empty, the chosen candidate
is the first date (in original input order) whose filtered slot list is
non-empty, and within that date the first surviving slot in original input
order — selection is by position, not by the smallest timestamp value. -/
theorem chosen_candidate_first_in_input_order (cfg : LocationConfig)
    (availDates : List LocationAvailabilityDate) :
    chosenBooking cfg availDates =
      (availDates.find?
          (fun date => date.AvailableTimeSlots.any (timeSlotKeep cfg))).bind
        (fun date => date.AvailableTimeSlots.find? (timeSlotKeep cfg)) :=
  chosenBooking_find_aux cfg availDates

/-- Claim C6, counterexample: in same-day mode a date whose `TimeSlot` list is
non-empty is nevertheless dropped by the availability filter when all of its
slots fall outside the configured hour window — the hour narrowing is applied
to slots in same-day mode too, contrary to the claim. -/
theorem sameDay_no_narrowing_refuted :
    dateFourteen.AvailableTimeSlots ≠ [] ∧
      filteredAvailabilityDates cfgSameDay [dateFourteen] = [] := by
  refine ⟨by simp [dateFourteen], ?_⟩
  rfl

/-- Claim C6 (amended): in same-day mode the date-window/weekday stage is
skipped — the raw date list passes through unchanged, dates with empty slot
lists included — but the hour filter still narrows the slots; a date survives
the whole filter iff at least one of its slots lies in the hour window. -/
theorem sameDay_mode_filter_characterization (cfg : LocationConfig)
    (dates : List LocationAvailabilityDate) (hs : cfg.sameDay = true) :
    availableDates cfg dates = dates ∧
      filteredAvailabilityDates cfg dates =
        (dates.filter
            (fun date => date.AvailableTimeSlots.any (timeSlotKeep cfg))).map
          (filterDateSlots cfg) := by
  have h1 : availableDates cfg dates = dates := by
    unfold availableDates
    rw [hs]
    rfl
  refine ⟨h1, ?_⟩
  unfold filteredAvailabilityDates
  rw [h1, filteredAvailabilityDatesFrom_eq]

/-- Witness for the amended claim C6 at a concrete same-day configuration. -/
theorem sameDay_mode_filter_characterization_witness :
    availableDates cfgSameDay [dateNine, dateFourteen] = [dateNine, dateFourteen] ∧
      filteredAvailabilityDates cfgSameDay [dateNine, dateFourteen] =
        ([dateNine, dateFourteen].filter
            (fun date => date.AvailableTimeSlots.any (timeSlotKeep cfgSameDay))).map
          (filterDateSlots cfgSameDay) :=
  sameDay_mode_filter_characterization cfgSameDay [dateNine, dateFourteen] rfl

/-- Pointwise form of the windowed-mode keep-condition: conjoined with
"some slot survives the hour filter", the source's predicate (exclusive
`isBetween`, raw non-emptiness, guarded preferred-day check) collapses to
strict window bounds, the preferred-day disjunction, and slot survival. -/
theorem windowedKeep_and_any (cfg : LocationConfig) (date : LocationAvailabilityDate)
    (hw : cfg.daysAroundStart ≤ cfg.daysAroundEnd) :
    (windowedKeep cfg date && date.AvailableTimeSlots.any (timeSlotKeep cfg))
      = (decide (cfg.startDateDay + cfg.daysAroundStart < date.AvailabilityDate)
          && decide (date.AvailabilityDate < cfg.startDateDay + cfg.daysAroundEnd)
          && (cfg.preferredDays.isEmpty
              || cfg.preferredDays.contains (dayjsDay date.AvailabilityDate))
          && date.AvailableTimeSlots.any (timeSlotKeep cfg)) := by
  rw [Bool.eq_iff_iff]
  unfold windowedKeep isBetweenDay
  by_cases hp : cfg.preferredDays = []
  · simp [hp, List.any_eq_true, List.length_pos]
    intro t ht _
    constructor
    · rintro ⟨hb, -⟩
      omega
    · intro hb
      exact ⟨Or.inl hb, List.ne_nil_of_mem ht⟩
  · simp [hp, List.any_eq_true, List.length_pos, List.isEmpty_iff]
    intro t ht _ _
    constructor
    · rintro ⟨hb, -⟩
      omega
    · intro hb
      exact ⟨Or.inl hb, List.ne_nil_of_mem ht⟩

/-- Claim C2, counterexample: the spec's inclusive-endpoint predicate accepts
a date lying exactly on `referenceDate + startOffsetDays`, but the source's
`isBetween(..., 'day')` call uses the dayjs default inclusivity `'()'`, so the
filter drops that date. -/
theorem windowed_inclusive_endpoints_refuted :
    specWindowedKeep cfgWindowed dateBoundary = true ∧
      filteredAvailabilityDates cfgWindowed [dateBoundary] = [] :=
  ⟨rfl, rfl⟩

/-- Claim C2 (amended): in windowed mode (with a well-formed window,
`startOffsetDays ≤ endOffsetDays`) a date is kept iff its calendar day lies
*strictly* between `referenceDate + startOffsetDays` and
`referenceDate + endOffsetDays` — both endpoints excluded — AND the
preferred-weekday set is empty or contains the date's weekday, AND at least
one slot survives the hour filter; kept dates carry their narrowed slot
lists. -/
theorem windowed_mode_filter_characterization (cfg : LocationConfig)
    (dates : List LocationAvailabilityDate) (hs : cfg.sameDay = false)
    (hw : cfg.daysAroundStart ≤ cfg.daysAroundEnd) :
    filteredAvailabilityDates cfg dates =
      (dates.filter (fun date =>
          decide (cfg.startDateDay + cfg.daysAroundStart < date.AvailabilityDate)
            && decide (date.AvailabilityDate < cfg.startDateDay + cfg.daysAroundEnd)
            && (cfg.preferredDays.isEmpty
                || cfg.preferredDays.contains (dayjsDay date.AvailabilityDate))
            && date.AvailableTimeSlots.any (timeSlotKeep cfg))).map
        (filterDateSlots cfg) := by
  unfold filteredAvailabilityDates availableDates
  rw [hs]
  show filteredAvailabilityDatesFrom cfg (dates.filter (windowedKeep cfg)) = _
  rw [filteredAvailabilityDatesFrom_eq, List.filter_filter]
  congr 1
  apply List.filter_congr
  intro date _
  rw [Bool.and_comm]
  exact windowedKeep_and_any cfg date hw

/-- Witness for the amended claim C2 at a concrete windowed configuration. -/
theorem windowed_mode_filter_characterization_witness :
    filteredAvailabilityDates cfgWindowed [dateBoundary, dateNine, dateFourteen] =
      ([dateBoundary, dateNine, dateFourteen].filter (fun date =>
          decide (cfgWindowed.startDateDay + cfgWindowed.daysAroundStart
              < date.AvailabilityDate)
            && decide (date.AvailabilityDate
              < cfgWindowed.startDateDay + cfgWindowed.daysAroundEnd)
            && (cfgWindowed.preferredDays.isEmpty
                || cfgWindowed.preferredDays.contains (dayjsDay date.AvailabilityDate))
            && date.AvailableTimeSlots.any (timeSlotKeep cfgWindowed))).map
        (filterDateSlots cfgWindowed) :=
  windowed_mode_filter_characterization cfgWindowed [dateBoundary, dateNine, dateFourteen]
    rfl (by decide)

/-- Claim C5: the candidate selection at line 208 is only well-defined when
some date retains a surviving slot.  First part: a concrete input whose raw
date list is non-empty while the hour filter empties every date, so the
selection indexes the first element of an empty filtered list and the call
throws.  Second part: the selection's index accesses are in bounds iff some
date has a non-empty filtered slot list. -/
theorem selection_requires_surviving_slot :
    (([dateFourteen] : List LocationAvailabilityDate) ≠ [] ∧
        filteredAvailabilityDatesFrom cfgWindowed [dateFourteen] = [] ∧
        getLocationDates cfgWindowed appCancel false [dateFourteen] false
          = StepOutcome.threw) ∧
      ∀ (cfg : LocationConfig) (availDates : List LocationAvailabilityDate),
        (chosenBooking cfg availDates).isSome = true ↔
          ∃ date ∈ availDates,
            date.AvailableTimeSlots.filter (timeSlotKeep cfg) ≠ [] := by
  refine ⟨⟨by simp, rfl, rfl⟩, ?_⟩
  intro cfg availDates
  rw [chosenBooking_find_aux]
  cases hf : availDates.find?
      (fun date => date.AvailableTimeSlots.any (timeSlotKeep cfg)) with
  | none =>
    simp only [Option.none_bind, Option.isSome_none]
    constructor
    · intro h
      cases h
    · rintro ⟨date, hmem, hne⟩
      have hall := List.find?_eq_none.mp hf date hmem
      exact absurd ((filter_ne_nil_iff_any _ _).mp hne) (by simpa using hall)
  | some date =>
    simp only [Option.some_bind]
    have hmem := List.mem_of_find?_eq_some hf
    have hany := List.find?_some hf
    constructor
    · intro _
      exact ⟨date, hmem, (filter_ne_nil_iff_any _ _).mpr hany⟩
    · intro _
      rw [← head_filter_eq_find, List.head?_isSome]
      exact (filter_ne_nil_iff_any _ _).mpr hany

/-- Claim C1, evaluated at a failing input: at a round where a filtered
candidate is found and the pre-hold policy check passes, `getLocationDates`
fulfills *without* issuing any hold request — the `holdSlot` call at line 216
is commented out in the source — contradicting the claim that a hold request
is issued.  The guard half of the claim does hold of `holdSlot` itself: an
attempt that observes the in-flight flag set returns at once with the state
unchanged, no exit and no log. -/
theorem candidate_found_but_no_hold_issued :
    getLocationDates cfgWindowed appCancel false [dateNine] false
        = StepOutcome.fulfilled slotNine true false ∧
      holdSlot { isBooked := false, isHolded := true, queuePaused := true } true 200 false
        = ({ isBooked := false, isHolded := true, queuePaused := true },
            { exitCode := none, errorLogged := false }) :=
  ⟨rfl, rfl⟩

/-- Claim C3, counterexample: with an existing booking and
`cancelIfExist = false`, the termination on finding a candidate happens via
`process.exit(0)` (line 214) — exit code zero, not the non-zero code the
claim states. -/
theorem pre_hold_policy_exit_code_is_zero :
    (match getLocationDates cfgWindowed appNoCancel true [dateNine] false with
      | StepOutcome.exited code _ => code = 0
      | _ => False) := by
  show (0 : Nat) = 0
  rfl

/-- Claim C3 (amended): whenever an existing booking is present,
`cancelIfExist` is false, and a filtered candidate is found, the process
terminates before any hold request is sent — but with exit code *zero*, not a
non-zero code. -/
theorem pre_hold_policy_exit (cfg : LocationConfig) (app : AppSettings)
    (dates : List LocationAvailabilityDate) (queuePaused : Bool)
    (hc : app.cancelIfExist = false)
    (hcand : (chosenBooking cfg (availableDates cfg dates)).isSome = true) :
    getLocationDates cfg app true dates queuePaused = StepOutcome.exited 0 true := by
  obtain ⟨booking, hb⟩ := Option.isSome_iff_exists.mp hcand
  have hne : availableDates cfg dates ≠ [] := by
    intro hnil
    rw [hnil] at hb
    cases hb
  unfold getLocationDates
  rw [if_pos (by simpa [List.length_pos] using hne), hb, hc]
  rfl

/-- Witness for the amended claim C3 at a concrete state. -/
theorem pre_hold_policy_exit_witness :
    getLocationDates cfgWindowed appNoCancel true [dateNine] false
      = StepOutcome.exited 0 true :=
  pre_hold_policy_exit cfgWindowed appNoCancel [dateNine] false rfl (by decide)

/-- Claim C9: when a hold attempt enters with the in-flight flag clear and the
process not yet booked, the hold succeeds, and the booking response is HTTP
200 with `Booking: null`, the sequence ends in the Failed state: the error is
logged, the in-flight flag is cleared, the queue is unpaused (polling
resumes), and no exit code is produced. -/
theorem book_null_returns_to_failed (st : SchedulerState)
    (hb : st.isBooked = false) (hh : st.isHolded = false) :
    holdSlot st true 200 true
      = ({ isBooked := false, isHolded := false, queuePaused := false },
          { exitCode := none, errorLogged := true }) := by
  cases st
  simp_all [holdSlot, bookSlot]

/-- Witness for claim C9 at a concrete state (queue paused by the scan). -/
theorem book_null_returns_to_failed_witness :
    holdSlot { isBooked := false, isHolded := false, queuePaused := true } true 200 true
      = ({ isBooked := false, isHolded := false, queuePaused := false },
          { exitCode := none, errorLogged := true }) :=
  book_null_returns_to_failed
    { isBooked := false, isHolded := false, queuePaused := true } rfl rfl

/-- Auxiliary count for `requestApi` under an always-failing transport:
starting from attempt counter `r ≤ maxRetry`, the call exits fatally after
`maxRetry + 1 - r` attempts. -/
theorem requestApi_always_fail_aux (maxRetry : Nat) (statusOf : Nat → Nat)
    (h : ∀ n, statusOf n ≠ 200) :
    ∀ d r, maxRetry - r = d → r ≤ maxRetry →
      requestApi maxRetry statusOf r = (RequestOutcome.fatalExit 1, maxRetry + 1 - r) := by
  intro d
  induction d with
  | zero =>
    intro r hd hr
    rw [requestApi]
    have hnlt : ¬ r < maxRetry := by omega
    rw [if_pos (h r), dif_neg hnlt]
    have : maxRetry + 1 - r = 1 := by omega
    rw [this]
  | succ n ih =>
    intro r hd hr
    rw [requestApi]
    have hlt : r < maxRetry := by omega
    rw [if_pos (h r), dif_pos hlt, ih (r + 1) (by omega) (by omega)]
    have : maxRetry + 1 - (r + 1) + 1 = maxRetry + 1 - r := by omega
    simpa using this

/-- Claim C4: with `maxRetry = k` and a transport returning a non-success
status on every attempt, the call starting at counter 0 issues exactly `k + 1`
attempts (counters 0 through k) and then exits fatally; and for any counter
below `k`, a non-success status retries with the counter incremented by
one. -/
theorem requestApi_retry_ceiling (k : Nat) (statusOf : Nat → Nat)
    (h : ∀ n, statusOf n ≠ 200) :
    requestApi k statusOf 0 = (RequestOutcome.fatalExit 1, k + 1) ∧
      ∀ r, r < k →
        requestApi k statusOf r
          = ((requestApi k statusOf (r + 1)).1, (requestApi k statusOf (r + 1)).2 + 1) := by
  constructor
  · have := requestApi_always_fail_aux k statusOf h (k - 0) 0 rfl (Nat.zero_le k)
    simpa using this
  · intro r hr
    rw [requestApi, if_pos (h r), dif_pos hr]

/-- Witness for claim C4: `maxRetry = 2` and a transport that always answers
503 gives fatal exit after exactly 3 attempts. -/
theorem requestApi_retry_ceiling_witness :
    requestApi 2 (fun _ => 503) 0 = (RequestOutcome.fatalExit 1, 3) :=
  (requestApi_retry_ceiling 2 (fun _ => 503)
    (fun _ => by show (503 : Nat) ≠ 200; decide)).1

end TexasScheduler
